import Mathlib

/-!
Verification of the event-extraction contract shared by the two demo
applications in this repository: the FastAPI backend
(`react-version/backend/main.py`, handler `extract_event`) and the
Streamlit demo shell (`streamlit-version/app.py`, function
`extract_event_info`).

Both programs wrap a single call to an external structured-output
completion service.  The external service is modelled as an oracle
`svc : String → ServiceOutcome` giving, for each user text sent, one of
the three execution outcomes the Python code distinguishes: the call
returns with a parsed `CalendarEvent`, the call returns with
`output_parsed = None`, or the call raises an exception with a given
`str(e)`.  The environment read `os.getenv("OPENAI_API_KEY")` is
modelled as an `Option String` (unset ↦ `none`); Python truthiness of
the result is `isTruthy`.  Each embedded function also returns the list
of user texts sent to the external service, so that the number of
outbound calls on each path is part of the model.

Fixed message texts produced by third-party libraries (the OpenAI
client constructor, pydantic validation, Python attribute errors) are
modelled as named string constants; the claims depend only on their
presence, not their exact wording, and quotation marks inside the
originals are omitted.
-/

namespace StreamlitToReact

/-- The three-field extraction schema, `CalendarEvent` in both source
files: `name`, `date`, `participants`. -/
structure CalendarEvent where
  name : String
  date : String
  participants : List String
deriving Repr, DecidableEq

/-- Outcome of one execution of `client.responses.parse(...)` followed by
reading `response.output_parsed`, as the Python code distinguishes them:
a parsed event, a `None` parse, or a raised exception carrying `str(e)`. -/
inductive ServiceOutcome where
  | parsed (e : CalendarEvent)
  | noParsed
  | raises (msg : String)
deriving Repr, DecidableEq

/-- `EventResponse` from `main.py`: wrapper for a successful extraction. -/
structure EventResponse where
  success : Bool
  event : CalendarEvent
deriving Repr, DecidableEq

/-- `ErrorResponse` from `main.py`.  Declared in the source but never
constructed on any code path; kept here to state the body shape the
specification attributes to error responses. -/
structure ErrorResponse where
  success : Bool
  error : String
deriving Repr, DecidableEq

/-- Result of the FastAPI handler `extract_event`: either the returned
`EventResponse`, or a raised `HTTPException` with a status code and a
detail string. -/
inductive ExtractResult where
  | ok (r : EventResponse)
  | httpError (status : Nat) (detail : String)
deriving Repr, DecidableEq

/-- The detail of the configuration `HTTPException` in `main.py`
lines 110-113. -/
def configErrorMsg : String :=
  "OpenAI API key not configured. Set OPENAI_API_KEY environment variable."

/-- The f-string head of the extraction-failure detail in `main.py`
line 143. -/
def failMsgHead : String := "Failed to extract event information: "

/-- Modelled third-party message: `str` of the pydantic `ValidationError`
raised by `EventResponse(success=True, event=None)` when
`output_parsed` is `None` (exact wording is pydantic-version dependent;
only its identity as a fixed non-empty string matters here). -/
def eventNoneValidationMsg : String :=
  "1 validation error for EventResponse: event: input should be a valid dictionary or instance of CalendarEvent"

/-- Modelled third-party message: `str` of the `OpenAIError` raised by the
`OpenAI` client constructor when the resolved api key is `None`
(quotation marks of the original omitted). -/
def openaiKeyErrorMsg : String :=
  "The api_key client option must be set either by passing api_key to the client or by setting the OPENAI_API_KEY environment variable"

/-- Modelled third-party message: `str` of the `AttributeError` raised by
`event.model_dump()` when `event` is `None` (quotation marks of the
original omitted). -/
def noneModelDumpMsg : String :=
  "NoneType object has no attribute model_dump"

/-- Python truthiness of an `os.getenv` result: `None` and the empty
string are falsy, used by `if not os.getenv("OPENAI_API_KEY")` in
`main.py` line 109. -/
def isTruthy : Option String → Bool
  | none => false
  | some s => !(s == "")

/-- Embedding of the FastAPI handler `extract_event` (`main.py`
lines 94-144), as a function of the request-time environment read, the
external-service oracle, and the request text.  Returns the handler
outcome together with the list of user texts sent to the external
service.  Paths: the credential truthiness check raises the
configuration `HTTPException` before any call; a parsed event is wrapped
as `EventResponse(success=True, event=event)`; a `None` parse makes that
constructor raise a pydantic `ValidationError`, caught by the
`except Exception` clause; a raised exception is caught there directly;
both caught cases re-raise `HTTPException(500, failMsgHead + str(e))`. -/
def extract_event (key : Option String) (svc : String → ServiceOutcome)
    (text : String) : ExtractResult × List String :=
  if !(isTruthy key) then
    (.httpError 500 configErrorMsg, [])
  else
    match svc text with
    | .parsed e => (.ok ⟨true, e⟩, [text])
    | .noParsed => (.httpError 500 (failMsgHead ++ eventNoneValidationMsg), [text])
    | .raises msg => (.httpError 500 (failMsgHead ++ msg), [text])

/-- Result of the Streamlit function `extract_event_info`: the dict
`event.model_dump()`, the dict with the single key `error`, or an
exception escaping the function (raised before the `try` block). -/
inductive StreamlitResult where
  | eventDict (e : CalendarEvent)
  | errorDict (msg : String)
  | uncaught (msg : String)
deriving Repr, DecidableEq

/-- Embedding of `extract_event_info` (`app.py` lines 8-38), as a function
of the call-time environment read, the external-service oracle, and the
input text.  Returns the function outcome together with the list of user
texts sent to the external service.  Paths: the `OpenAI` client
constructor on line 13 runs before the `try` block and raises an
`OpenAIError` when the key resolves to `None`, so that exception escapes
the function uncaught with zero calls; otherwise one call is made, a
parsed event is returned as `event.model_dump()`, a `None` parse makes
`event.model_dump()` raise an `AttributeError` caught by
`except Exception`, and a raised exception is caught there; both caught
cases return the dict with `error` mapped to `str(e)` verbatim. -/
def extract_event_info (key : Option String) (svc : String → ServiceOutcome)
    (text : String) : StreamlitResult × List String :=
  match key with
  | none => (.uncaught openaiKeyErrorMsg, [])
  | some _ =>
    match svc text with
    | .parsed e => (.eventDict e, [text])
    | .noParsed => (.errorDict noneModelDumpMsg, [text])
    | .raises msg => (.errorDict msg, [text])

/-- Minimal JSON value type for stating HTTP body shapes. -/
inductive Json where
  | str (s : String)
  | bool (b : Bool)
  | arr (xs : List Json)
  | obj (fields : List (String × Json))
deriving Repr

/-- Whether a JSON object has a field with the given key. -/
def Json.hasKey : Json → String → Bool
  | .obj fields, k => fields.any (fun p => p.1 == k)
  | _, _ => false

/-- JSON serialization of a `CalendarEvent` in the field order declared by
the pydantic model: name, date, participants. -/
def eventToJson (e : CalendarEvent) : Json :=
  .obj [("name", .str e.name), ("date", .str e.date),
        ("participants", .arr (e.participants.map Json.str))]

/-- HTTP response body of the handler outcome.  A returned
`EventResponse` is serialized by its pydantic field order; a raised
`HTTPException` is rendered by FastAPI default exception handler
(third-party framework behaviour) as an object with the single key
`detail` holding the detail string. -/
def responseBody : ExtractResult → Json
  | .ok r => .obj [("success", .bool r.success), ("event", eventToJson r.event)]
  | .httpError _ detail => .obj [("detail", .str detail)]

/-- HTTP status code of the handler outcome. -/
def responseStatus : ExtractResult → Nat
  | .ok _ => 200
  | .httpError s _ => s

/-- JSON body the source `ErrorResponse` model would serialize to: the
shape the specification attributes to error responses. -/
def errorResponseBody (d : String) : Json :=
  .obj [("success", .bool false), ("error", .str d)]

/-- What `st.json(result)` displays for each function outcome; `none`
when the script died before reaching the display. -/
def stDisplay : StreamlitResult → Option Json
  | .eventDict e => some (eventToJson e)
  | .errorDict m => some (.obj [("error", .str m)])
  | .uncaught _ => none

/-- The two environment reads of the FastAPI backend: the module-level
read on line 44 used to construct the OpenAI client at import, and the
per-request read on line 109 inside the handler. -/
structure ReactEnvTrace where
  keyAtStart : Option String
  keyAtRequest : Option String
deriving Repr, DecidableEq

/-- The FastAPI backend as a whole process: with `keyAtStart = none` the
module-level `OpenAI` constructor raises at import and the server never
starts (`none`); otherwise the handler runs on the request-time read and
issues its outbound call through the client built from the start-time
key (`main.py` line 44, used on line 118), so the process-level oracle
takes the client credential as well as the user text. -/
def extract_event_full (env : ReactEnvTrace)
    (svc : String → String → ServiceOutcome) (text : String) :
    Option (ExtractResult × List String) :=
  match env.keyAtStart with
  | none => none
  | some clientKey => some (extract_event env.keyAtRequest (svc clientKey) text)

/-- The interactive inputs of the Streamlit script: the name text input,
the age slider, the activity selectbox, the event text area, and whether
the extract button was clicked. -/
structure AppInputs where
  name : String
  age : Nat
  activity : String
  event_text : String
  extractClicked : Bool
deriving Repr, DecidableEq

/-- The outputs the Streamlit script renders from those inputs (emoji
suffixes of the source literals omitted). -/
structure AppOutputs where
  greeting : Option String
  ageLine : String
  activityLine : String
  extraction : Option StreamlitResult
deriving Repr, DecidableEq

/-- Embedding of the straight-line Streamlit script (`app.py`
lines 50-79): each widget renders from its own input, and the extraction
result is computed from the event text alone when the button is
clicked. -/
def app_run (inp : AppInputs) (key : Option String)
    (svc : String → ServiceOutcome) : AppOutputs :=
  ⟨if inp.name == "" then none else some ("Hello, " ++ inp.name ++ "!"),
   "Your age: " ++ toString inp.age ++ " years old",
   "You selected: **" ++ inp.activity ++ "**",
   if inp.extractClicked then some (extract_event_info key svc inp.event_text).1
   else none⟩

/-- The stub value of the specification test scenario. -/
def sciFair : CalendarEvent := ⟨"science fair", "Friday", ["Alice", "Bob"]⟩

/-- Well-formedness of a handler outcome as the specification describes
it: success flag set on the ok path, and on the error path status 500
with a non-empty detail. -/
def reactOutcomeOk : ExtractResult → Bool
  | .ok r => r.success
  | .httpError s d => s == 500 && !(d == "")

/-- Well-formedness of a Streamlit outcome as the specification
describes it: either the event dict or an error dict with a non-empty
description, never an escaping exception. -/
def streamlitOutcomeOk : StreamlitResult → Bool
  | .eventDict _ => true
  | .errorDict m => !(m == "")
  | .uncaught _ => false

/-- Evaluation lemma: the handler on a falsy credential read. -/
theorem extract_event_config (key : Option String)
    (svc : String → ServiceOutcome) (text : String)
    (hk : isTruthy key = false) :
    extract_event key svc text = (.httpError 500 configErrorMsg, []) := by
  simp [extract_event, hk]

/-- Evaluation lemma: the handler when the call parses an event. -/
theorem extract_event_parsed (key : Option String)
    (svc : String → ServiceOutcome) (text : String) (e : CalendarEvent)
    (hk : isTruthy key = true) (hs : svc text = .parsed e) :
    extract_event key svc text = (.ok ⟨true, e⟩, [text]) := by
  simp [extract_event, hk, hs]

/-- Evaluation lemma: the handler when the call parses nothing. -/
theorem extract_event_noParsed (key : Option String)
    (svc : String → ServiceOutcome) (text : String)
    (hk : isTruthy key = true) (hs : svc text = .noParsed) :
    extract_event key svc text =
      (.httpError 500 (failMsgHead ++ eventNoneValidationMsg), [text]) := by
  simp [extract_event, hk, hs]

/-- Evaluation lemma: the handler when the call raises. -/
theorem extract_event_raises (key : Option String)
    (svc : String → ServiceOutcome) (text : String) (msg : String)
    (hk : isTruthy key = true) (hs : svc text = .raises msg) :
    extract_event key svc text =
      (.httpError 500 (failMsgHead ++ msg), [text]) := by
  simp [extract_event, hk, hs]

/-- Evaluation lemma: the shell function when the call parses an event. -/
theorem extract_event_info_parsed (s : String)
    (svc : String → ServiceOutcome) (text : String) (e : CalendarEvent)
    (hs : svc text = .parsed e) :
    extract_event_info (some s) svc text = (.eventDict e, [text]) := by
  simp [extract_event_info, hs]

/-- Evaluation lemma: the shell function when the call parses nothing. -/
theorem extract_event_info_noParsed (s : String)
    (svc : String → ServiceOutcome) (text : String)
    (hs : svc text = .noParsed) :
    extract_event_info (some s) svc text =
      (.errorDict noneModelDumpMsg, [text]) := by
  simp [extract_event_info, hs]

/-- Evaluation lemma: the shell function when the call raises. -/
theorem extract_event_info_raises (s : String)
    (svc : String → ServiceOutcome) (text : String) (msg : String)
    (hs : svc text = .raises msg) :
    extract_event_info (some s) svc text = (.errorDict msg, [text]) := by
  simp [extract_event_info, hs]

/-- A truthy credential read is a present, non-empty string. -/
theorem isTruthy_some (key : Option String) (hk : isTruthy key = true) :
    ∃ s, key = some s ∧ (s == "") = false := by
  cases key
  · exact absurd hk (by decide)
  · rename_i s
    refine ⟨s, rfl, ?_⟩
    simpa [isTruthy] using hk

/-- The extraction-failure detail is never the empty string. -/
theorem failMsgHead_append_ne_empty (msg : String) :
    (failMsgHead ++ msg == "") = false := by
  apply beq_eq_false_iff_ne.mpr
  intro h
  have hd := congrArg String.data h
  rw [String.data_append] at hd
  exact absurd (List.append_eq_nil.mp hd).1 (by decide)

/-- The user texts sent by the handler: one request when the credential
check passes, none otherwise. -/
theorem extract_event_calls (key : Option String)
    (svc : String → ServiceOutcome) (text : String) :
    (extract_event key svc text).2 = if isTruthy key then [text] else [] := by
  cases hk : isTruthy key
  · rw [extract_event_config key svc text hk]
    simp
  · cases hsvc : svc text
    · rename_i e
      rw [extract_event_parsed key svc text e hk hsvc]
      simp
    · rw [extract_event_noParsed key svc text hk hsvc]
      simp
    · rename_i m
      rw [extract_event_raises key svc text m hk hsvc]
      simp

/-- The user texts sent by the shell function: one request when the key
is present, none otherwise. -/
theorem extract_event_info_calls (key : Option String)
    (svc : String → ServiceOutcome) (text : String) :
    (extract_event_info key svc text).2 =
      if key.isSome then [text] else [] := by
  cases key
  · rfl
  · rename_i s
    cases hsvc : svc text
    · rename_i e
      rw [extract_event_info_parsed s svc text e hsvc]
      rfl
    · rw [extract_event_info_noParsed s svc text hsvc]
      rfl
    · rename_i m
      rw [extract_event_info_raises s svc text m hsvc]
      rfl

/-- C1: with no credential configured (the environment variable unset),
both programs fail immediately with a configuration-specific error
message — the backend with the configuration `HTTPException`, the demo
shell with the client constructor error escaping uncaught — and neither
sends anything to the external service. -/
theorem C1_no_credential (svc : String → ServiceOutcome) (text : String) :
    extract_event none svc text = (.httpError 500 configErrorMsg, []) ∧
    extract_event_info none svc text = (.uncaught openaiKeyErrorMsg, []) ∧
    configErrorMsg ≠ "" ∧ openaiKeyErrorMsg ≠ "" := by
  refine ⟨rfl, rfl, ?_, ?_⟩ <;> decide

/-- C2 as stated is false: on a failing request the handler raises an
`HTTPException`, which FastAPI renders as a body with the single key
`detail`; the body has no `success` field, unlike the shape the claim
asserts (the shape the unused source `ErrorResponse` model would give). -/
theorem C2_counterexample :
    Json.hasKey
      (responseBody (extract_event (some "k") (fun _ => .raises "boom") "t").1)
      "success" = false ∧
    Json.hasKey (errorResponseBody (failMsgHead ++ "boom")) "success" = true ∧
    (extract_event (some "k") (fun _ => .raises "boom") "t").1 =
      .httpError 500 (failMsgHead ++ "boom") := by
  refine ⟨rfl, rfl, by decide⟩

/-- C2 amended: every failing request yields status 500 with the failure
description carried as the `detail` field of the body (FastAPI default
rendering of the raised `HTTPException`), not a success/error object;
for extraction failures the description is the fixed head
`Failed to extract event information: ` followed by the underlying
failure description. -/
theorem C2_amended (key : Option String) (svc : String → ServiceOutcome)
    (text : String) (s : Nat) (d : String)
    (hfail : (extract_event key svc text).1 = .httpError s d) :
    s = 500 ∧
    responseBody (extract_event key svc text).1 = .obj [("detail", .str d)] ∧
    (∀ msg, isTruthy key = true → svc text = .raises msg →
      d = failMsgHead ++ msg) := by
  cases hk : isTruthy key
  · have he := extract_event_config key svc text hk
    rw [he] at hfail
    replace hfail : ExtractResult.httpError 500 configErrorMsg =
        ExtractResult.httpError s d := hfail
    obtain ⟨h1, h2⟩ := (ExtractResult.httpError.injEq _ _ _ _).mp hfail
    refine ⟨h1.symm, ?_, ?_⟩
    · rw [he]
      simp [responseBody, h2]
    · intro msg hkt _
      exact absurd hkt (by decide)
  · cases hsvc : svc text
    · rename_i e
      have he := extract_event_parsed key svc text e hk hsvc
      rw [he] at hfail
      replace hfail : ExtractResult.ok ⟨true, e⟩ =
          ExtractResult.httpError s d := hfail
      exact ExtractResult.noConfusion hfail
    · have he := extract_event_noParsed key svc text hk hsvc
      rw [he] at hfail
      replace hfail :
          ExtractResult.httpError 500 (failMsgHead ++ eventNoneValidationMsg) =
            ExtractResult.httpError s d := hfail
      obtain ⟨h1, h2⟩ := (ExtractResult.httpError.injEq _ _ _ _).mp hfail
      refine ⟨h1.symm, ?_, ?_⟩
      · rw [he]
        simp [responseBody, h2]
      · intro msg _ hraise
        exact ServiceOutcome.noConfusion hraise
    · rename_i m
      have he := extract_event_raises key svc text m hk hsvc
      rw [he] at hfail
      replace hfail : ExtractResult.httpError 500 (failMsgHead ++ m) =
          ExtractResult.httpError s d := hfail
      obtain ⟨h1, h2⟩ := (ExtractResult.httpError.injEq _ _ _ _).mp hfail
      refine ⟨h1.symm, ?_, ?_⟩
      · rw [he]
        simp [responseBody, h2]
      · intro msg _ hraise
        have hm : m = msg := by injection hraise
        rw [← h2, hm]

/-- Witness for C2 amended at a concrete failing request. -/
theorem C2_amended_witness :
    (extract_event (some "k") (fun _ => ServiceOutcome.raises "crash") "t").1 =
      .httpError 500 (failMsgHead ++ "crash") ∧
    (500 = 500 ∧
     responseBody (extract_event (some "k")
        (fun _ => ServiceOutcome.raises "crash") "t").1 =
       .obj [("detail", .str (failMsgHead ++ "crash"))] ∧
     (∀ msg, isTruthy (some "k") = true →
        (fun _ => ServiceOutcome.raises "crash") "t" = .raises msg →
        failMsgHead ++ "crash" = failMsgHead ++ msg)) :=
  ⟨by decide,
   C2_amended (some "k") (fun _ => ServiceOutcome.raises "crash") "t" 500
     (failMsgHead ++ "crash") (by decide)⟩

/-- C3 as stated is false for the demo shell: when the external call
raises an exception whose `str` is empty, the returned error dict
carries the empty description verbatim, so the failure does not carry a
non-empty error description. -/
theorem C3_counterexample :
    (extract_event_info (some "k") (fun _ => .raises "") "t").1 =
      .errorDict "" ∧
    streamlitOutcomeOk
      (extract_event_info (some "k") (fun _ => .raises "") "t").1 = false := by
  exact ⟨rfl, rfl⟩

/-- C3 amended: with a configured credential, each invocation yields
exactly one of success with a fully populated event or failure with an
error description; the backend description is always non-empty (it
always starts with the fixed failure head), while the demo shell
surfaces the underlying description verbatim and so is empty exactly
when the raised exception description is empty. -/
theorem C3_amended (key : Option String) (svc : String → ServiceOutcome)
    (text : String) (hk : isTruthy key = true) :
    reactOutcomeOk (extract_event key svc text).1 = true ∧
    ((∃ e, (extract_event_info key svc text).1 = .eventDict e) ∨
     (∃ d, (extract_event_info key svc text).1 = .errorDict d)) ∧
    ((extract_event_info key svc text).1 = .errorDict "" →
      svc text = .raises "") := by
  obtain ⟨s, rfl, hs0⟩ := isTruthy_some key hk
  cases hsvc : svc text
  · rename_i e
    rw [extract_event_parsed _ svc text e hk hsvc,
        extract_event_info_parsed s svc text e hsvc]
    refine ⟨rfl, .inl ⟨e, rfl⟩, ?_⟩
    intro h
    replace h : StreamlitResult.eventDict e = .errorDict "" := h
    exact StreamlitResult.noConfusion h
  · rw [extract_event_noParsed _ svc text hk hsvc,
        extract_event_info_noParsed s svc text hsvc]
    refine ⟨rfl, .inr ⟨noneModelDumpMsg, rfl⟩, ?_⟩
    intro h
    replace h : StreamlitResult.errorDict noneModelDumpMsg = .errorDict "" := h
    have hm : noneModelDumpMsg = "" := by injection h
    exact absurd hm (by decide)
  · rename_i msg
    rw [extract_event_raises _ svc text msg hk hsvc,
        extract_event_info_raises s svc text msg hsvc]
    refine ⟨?_, .inr ⟨msg, rfl⟩, ?_⟩
    · simp [reactOutcomeOk, failMsgHead_append_ne_empty]
    · intro h
      replace h : StreamlitResult.errorDict msg = .errorDict "" := h
      have hm : msg = "" := by injection h
      rw [hm]

/-- Witness for C3 amended at a concrete configured key and service. -/
theorem C3_amended_witness :
    isTruthy (some "k") = true ∧
    (reactOutcomeOk
       (extract_event (some "k") (fun _ => ServiceOutcome.noParsed) "t").1 =
       true ∧
     ((∃ e, (extract_event_info (some "k")
          (fun _ => ServiceOutcome.noParsed) "t").1 = .eventDict e) ∨
      (∃ d, (extract_event_info (some "k")
          (fun _ => ServiceOutcome.noParsed) "t").1 = .errorDict d)) ∧
     ((extract_event_info (some "k")
        (fun _ => ServiceOutcome.noParsed) "t").1 = .errorDict "" →
       (fun _ => ServiceOutcome.noParsed) "t" = .raises "")) :=
  ⟨by decide,
   C3_amended (some "k") (fun _ => ServiceOutcome.noParsed) "t" (by decide)⟩

/-- C4 as stated is false: two backend runs whose environments agree at
process start (both start with the key set to `k`) behave differently
when the variable is changed before a request, because the handler
re-reads the environment on every request (`main.py` line 109). -/
theorem C4_counterexample :
    (⟨some "k", some "k"⟩ : ReactEnvTrace).keyAtStart =
      (⟨some "k", none⟩ : ReactEnvTrace).keyAtStart ∧
    extract_event_full ⟨some "k", some "k"⟩ (fun _ _ => .parsed sciFair) "t" ≠
      extract_event_full ⟨some "k", none⟩ (fun _ _ => .parsed sciFair) "t" := by
  exact ⟨rfl, by decide⟩

/-- C4 amended: the credential is read from the environment more than
once — the backend reads it at module initialization to build the client
used for the outbound call, and again inside the handler on every
request — and each read can influence behaviour: a started server
answers a request with the configuration error whenever the request-time
read is falsy, whatever key built the client; runs agreeing at process
start can diverge after a later change to the variable; and runs
agreeing at request time can diverge when different start keys built
clients the service treats differently. -/
theorem C4_amended :
    (∀ (env : ReactEnvTrace) (k : String)
       (svc : String → String → ServiceOutcome) (text : String),
      env.keyAtStart = some k → isTruthy env.keyAtRequest = false →
      extract_event_full env svc text =
        some (.httpError 500 configErrorMsg, [])) ∧
    (∃ env env' : ReactEnvTrace, ∃ svc : String → String → ServiceOutcome,
      ∃ text, env.keyAtStart = env'.keyAtStart ∧
      extract_event_full env svc text ≠ extract_event_full env' svc text) ∧
    (∃ env env' : ReactEnvTrace, ∃ svc : String → String → ServiceOutcome,
      ∃ text, env.keyAtRequest = env'.keyAtRequest ∧
      extract_event_full env svc text ≠ extract_event_full env' svc text) := by
  refine ⟨?_, ?_, ?_⟩
  · intro env k svc text hstart hreq
    simp only [extract_event_full, hstart]
    rw [extract_event_config env.keyAtRequest (svc k) text hreq]
  · exact ⟨⟨some "k", some "k"⟩, ⟨some "k", none⟩,
      fun _ _ => .parsed sciFair, "t", rfl, by decide⟩
  · exact ⟨⟨some "a", some "k"⟩, ⟨some "b", some "k"⟩,
      fun ck _ => if ck == "a" then .parsed sciFair else .raises "bad key",
      "t", rfl, by decide⟩

/-- Witness for C4 amended: a server started with a key answers a
request made after the variable was unset with the configuration
error. -/
theorem C4_amended_witness :
    (⟨some "k", none⟩ : ReactEnvTrace).keyAtStart = some "k" ∧
    isTruthy (⟨some "k", none⟩ : ReactEnvTrace).keyAtRequest = false ∧
    extract_event_full ⟨some "k", none⟩
        (fun _ _ => ServiceOutcome.parsed sciFair) "t" =
      some (.httpError 500 configErrorMsg, []) :=
  ⟨rfl, rfl,
   C4_amended.1 ⟨some "k", none⟩ "k"
     (fun _ _ => ServiceOutcome.parsed sciFair) "t" rfl rfl⟩

/-- C5: if the external service returns the parsed value
`science fair / Friday / [Alice, Bob]`, the backend returns success with
exactly that structure and the endpoint renders status 200 with the
success/event body; the demo shell returns the same event dict. -/
theorem C5_stub_scifair (key : Option String) (svc : String → ServiceOutcome)
    (text : String) (hk : isTruthy key = true)
    (hs : svc text = .parsed sciFair) :
    (extract_event key svc text).1 = .ok ⟨true, sciFair⟩ ∧
    responseStatus (extract_event key svc text).1 = 200 ∧
    responseBody (extract_event key svc text).1 =
      .obj [("success", .bool true),
            ("event", .obj [("name", .str "science fair"),
                            ("date", .str "Friday"),
                            ("participants", .arr [.str "Alice", .str "Bob"])])] ∧
    (extract_event_info key svc text).1 = .eventDict sciFair := by
  obtain ⟨s, rfl, hs0⟩ := isTruthy_some key hk
  rw [extract_event_parsed _ svc text sciFair hk hs,
      extract_event_info_parsed s svc text sciFair hs]
  exact ⟨rfl, rfl, rfl, rfl⟩

/-- Witness for C5 at the specification test scenario. -/
theorem C5_stub_scifair_witness :
    isTruthy (some "k") = true ∧
    ((extract_event (some "k") (fun _ => ServiceOutcome.parsed sciFair)
        "Alice and Bob are going to a science fair on Friday.").1 =
      .ok ⟨true, sciFair⟩ ∧
     responseStatus (extract_event (some "k")
        (fun _ => ServiceOutcome.parsed sciFair)
        "Alice and Bob are going to a science fair on Friday.").1 = 200 ∧
     responseBody (extract_event (some "k")
        (fun _ => ServiceOutcome.parsed sciFair)
        "Alice and Bob are going to a science fair on Friday.").1 =
       .obj [("success", .bool true),
             ("event", .obj [("name", .str "science fair"),
                             ("date", .str "Friday"),
                             ("participants", .arr [.str "Alice", .str "Bob"])])] ∧
     (extract_event_info (some "k") (fun _ => ServiceOutcome.parsed sciFair)
        "Alice and Bob are going to a science fair on Friday.").1 =
       .eventDict sciFair) :=
  ⟨by decide,
   C5_stub_scifair (some "k") (fun _ => ServiceOutcome.parsed sciFair)
     "Alice and Bob are going to a science fair on Friday." (by decide) rfl⟩

/-- C6: on a successful extraction both programs return the supplied
participants list unchanged — same elements, same order, duplicates
retained — and the serialized body renders it element-by-element in that
order. -/
theorem C6_participants_preserved (key : Option String)
    (svc : String → ServiceOutcome) (text : String) (e : CalendarEvent)
    (hk : isTruthy key = true) (hs : svc text = .parsed e) :
    (∃ r, (extract_event key svc text).1 = .ok r ∧
      r.event.participants = e.participants) ∧
    (extract_event_info key svc text).1 = .eventDict e ∧
    responseBody (extract_event key svc text).1 =
      .obj [("success", .bool true),
            ("event", .obj [("name", .str e.name), ("date", .str e.date),
                            ("participants",
                             .arr (e.participants.map Json.str))])] := by
  obtain ⟨s, rfl, hs0⟩ := isTruthy_some key hk
  rw [extract_event_parsed _ svc text e hk hs,
      extract_event_info_parsed s svc text e hs]
  exact ⟨⟨⟨true, e⟩, rfl, rfl⟩, rfl, rfl⟩

/-- Witness for C6 at a participants list with a retained duplicate. -/
theorem C6_participants_preserved_witness :
    isTruthy (some "k") = true ∧
    ((∃ r, (extract_event (some "k")
        (fun _ => ServiceOutcome.parsed ⟨"picnic", "May 1", ["Alice", "Alice", "Bob"]⟩)
        "t").1 = .ok r ∧ r.event.participants = ["Alice", "Alice", "Bob"]) ∧
     (extract_event_info (some "k")
        (fun _ => ServiceOutcome.parsed ⟨"picnic", "May 1", ["Alice", "Alice", "Bob"]⟩)
        "t").1 = .eventDict ⟨"picnic", "May 1", ["Alice", "Alice", "Bob"]⟩ ∧
     responseBody (extract_event (some "k")
        (fun _ => ServiceOutcome.parsed ⟨"picnic", "May 1", ["Alice", "Alice", "Bob"]⟩)
        "t").1 =
       .obj [("success", .bool true),
             ("event",
              .obj [("name", .str "picnic"), ("date", .str "May 1"),
                    ("participants",
                     .arr (["Alice", "Alice", "Bob"].map Json.str))])]) :=
  ⟨by decide,
   C6_participants_preserved (some "k")
     (fun _ => ServiceOutcome.parsed ⟨"picnic", "May 1", ["Alice", "Alice", "Bob"]⟩)
     "t" ⟨"picnic", "May 1", ["Alice", "Alice", "Bob"]⟩ (by decide) rfl⟩

/-- C7 as stated is false: an invocation with no credential configured
performs zero outbound calls, not exactly one — the configuration check
fails before the external call is reached. -/
theorem C7_counterexample :
    (extract_event none (fun _ => .parsed sciFair) "t").2.length ≠ 1 ∧
    (extract_event_info none (fun _ => .parsed sciFair) "t").2.length ≠ 1 := by
  exact ⟨by decide, by decide⟩

/-- C7 amended: every invocation of either program performs at most one
outbound call, and exactly one — the single request carrying the input
text — whenever the credential check passes (backend: truthy key; shell:
key present); no path performs a second attempt. -/
theorem C7_amended (key : Option String) (svc : String → ServiceOutcome)
    (text : String) :
    (extract_event key svc text).2.length ≤ 1 ∧
    (isTruthy key = true → (extract_event key svc text).2 = [text]) ∧
    (extract_event_info key svc text).2.length ≤ 1 ∧
    (key ≠ none → (extract_event_info key svc text).2 = [text]) := by
  refine ⟨?_, ?_, ?_, ?_⟩
  · rw [extract_event_calls]
    cases isTruthy key <;> simp
  · intro hkt
    rw [extract_event_calls, hkt]
    simp
  · rw [extract_event_info_calls]
    cases key.isSome <;> simp
  · intro hne
    have hks : key.isSome = true := by
      cases key
      · exact absurd rfl hne
      · rfl
    rw [extract_event_info_calls, hks]
    simp

/-- Witness for C7 amended at a concrete configured key. -/
theorem C7_amended_witness :
    (extract_event (some "k") (fun _ => ServiceOutcome.raises "boom") "t").2.length ≤ 1 ∧
    (isTruthy (some "k") = true →
      (extract_event (some "k") (fun _ => ServiceOutcome.raises "boom") "t").2 = ["t"]) ∧
    (extract_event_info (some "k") (fun _ => ServiceOutcome.raises "boom") "t").2.length ≤ 1 ∧
    (some "k" ≠ none →
      (extract_event_info (some "k") (fun _ => ServiceOutcome.raises "boom") "t").2 = ["t"]) :=
  C7_amended (some "k") (fun _ => ServiceOutcome.raises "boom") "t"

/-- C8: whenever the external call raises, the demo shell returns the
error dict whose single field `error` holds the raised description
verbatim, and that dict is what `st.json` displays. -/
theorem C8_error_verbatim (s : String) (svc : String → ServiceOutcome)
    (text msg : String) (hs : svc text = .raises msg) :
    (extract_event_info (some s) svc text).1 = .errorDict msg ∧
    stDisplay (extract_event_info (some s) svc text).1 =
      some (.obj [("error", .str msg)]) := by
  rw [extract_event_info_raises s svc text msg hs]
  exact ⟨rfl, rfl⟩

/-- Witness for C8 at a concrete raised description. -/
theorem C8_error_verbatim_witness :
    (extract_event_info (some "k") (fun _ => ServiceOutcome.raises "rate limited") "t").1 =
      .errorDict "rate limited" ∧
    stDisplay (extract_event_info (some "k")
        (fun _ => ServiceOutcome.raises "rate limited") "t").1 =
      some (.obj [("error", .str "rate limited")]) :=
  C8_error_verbatim "k" (fun _ => ServiceOutcome.raises "rate limited") "t"
    "rate limited" rfl

/-- C9: two runs of the demo shell that agree on the event text and on
whether extraction was triggered produce identical extraction results,
whatever the name input, age slider, and activity selection are. -/
theorem C9_independent (inp₁ inp₂ : AppInputs) (key : Option String)
    (svc : String → ServiceOutcome)
    (htext : inp₁.event_text = inp₂.event_text)
    (hclick : inp₁.extractClicked = inp₂.extractClicked) :
    (app_run inp₁ key svc).extraction = (app_run inp₂ key svc).extraction := by
  simp [app_run, htext, hclick]

/-- Witness for C9 at two runs differing in every unrelated control. -/
theorem C9_independent_witness :
    (⟨"Ann", 30, "Reading", "t", true⟩ : AppInputs).event_text =
      (⟨"Ben", 60, "Sports", "t", true⟩ : AppInputs).event_text ∧
    (⟨"Ann", 30, "Reading", "t", true⟩ : AppInputs).extractClicked =
      (⟨"Ben", 60, "Sports", "t", true⟩ : AppInputs).extractClicked ∧
    (app_run ⟨"Ann", 30, "Reading", "t", true⟩ (some "k")
        (fun _ => ServiceOutcome.parsed sciFair)).extraction =
      (app_run ⟨"Ben", 60, "Sports", "t", true⟩ (some "k")
        (fun _ => ServiceOutcome.parsed sciFair)).extraction :=
  ⟨rfl, rfl,
   C9_independent ⟨"Ann", 30, "Reading", "t", true⟩
     ⟨"Ben", 60, "Sports", "t", true⟩ (some "k")
     (fun _ => ServiceOutcome.parsed sciFair) rfl rfl⟩

/-- C10: when the external call returns without raising but yields no
parsed value, the backend responds 500 with the failure detail carrying
the validation description, and the demo shell returns an error dict —
neither ever produces a success carrying a missing event. -/
theorem C10_no_parsed (key : Option String) (svc : String → ServiceOutcome)
    (text : String) (hk : isTruthy key = true) (hs : svc text = .noParsed) :
    (extract_event key svc text).1 =
      .httpError 500 (failMsgHead ++ eventNoneValidationMsg) ∧
    responseStatus (extract_event key svc text).1 = 500 ∧
    responseBody (extract_event key svc text).1 =
      .obj [("detail", .str (failMsgHead ++ eventNoneValidationMsg))] ∧
    (extract_event_info key svc text).1 = .errorDict noneModelDumpMsg := by
  obtain ⟨s, rfl, hs0⟩ := isTruthy_some key hk
  rw [extract_event_noParsed _ svc text hk hs,
      extract_event_info_noParsed s svc text hs]
  exact ⟨rfl, rfl, rfl, rfl⟩

/-- Witness for C10 at a concrete configured key. -/
theorem C10_no_parsed_witness :
    isTruthy (some "k") = true ∧
    ((extract_event (some "k") (fun _ => ServiceOutcome.noParsed) "t").1 =
      .httpError 500 (failMsgHead ++ eventNoneValidationMsg) ∧
     responseStatus (extract_event (some "k")
        (fun _ => ServiceOutcome.noParsed) "t").1 = 500 ∧
     responseBody (extract_event (some "k")
        (fun _ => ServiceOutcome.noParsed) "t").1 =
       .obj [("detail", .str (failMsgHead ++ eventNoneValidationMsg))] ∧
     (extract_event_info (some "k") (fun _ => ServiceOutcome.noParsed) "t").1 =
       .errorDict noneModelDumpMsg) :=
  ⟨by decide,
   C10_no_parsed (some "k") (fun _ => ServiceOutcome.noParsed) "t"
     (by decide) rfl⟩

end StreamlitToReact
